import Mathlib

/-!
Shallow embedding of the training-job script src/trainer/task_hypertune.py:
data preprocessing (pixel normalization, one-hot label encoding), the
train-and-evaluate pipeline with its external effects modelled as an
oracle environment and an event trace, and the command-line front end.
-/

namespace MNISTTrainer

/-- Model of POSIX os.path.join on two components, as used by the script:
if the second component is absolute it wins; otherwise the components are
joined, inserting a slash unless the first is empty or already ends in one. -/
def os_path_join (a b : String) : String :=
  if b.startsWith "/" then b
  else if a = "" || a.endsWith "/" then a ++ b
  else a ++ "/" ++ b

/-- Pixel normalization from the source (line 101-102): x / 255.0, applied
elementwise to the raw pixel array; modelled on exact rationals. -/
def _preprocess_x (v : ℚ) : ℚ := v / 255

/-- Number of classes inferred by keras to_categorical when num_classes is
omitted: one more than the largest label in the array. -/
def numClasses (y : List Nat) : Nat := y.foldl max 0 + 1

/-- One row of the one-hot matrix: length c, entry 1 at index l, 0 elsewhere. -/
def oneHotRow (c l : Nat) : List ℚ :=
  (List.range c).map (fun i => if i = l then 1 else 0)

/-- Model of tensorflow.keras.utils.to_categorical with inferred class count:
each integer label becomes a one-hot row of length numClasses y. -/
def to_categorical (y : List Nat) : List (List ℚ) :=
  y.map (oneHotRow (numClasses y))

/-- Label preprocessing from the source (line 105-106). -/
def _preprocess_y (y : List Nat) : List (List ℚ) := to_categorical y

/-- Raw MNIST data as delivered by mnist.load_data(): train and test splits,
features flattened to a list of pixel values, labels as integer classes. -/
structure RawData where
  x_train : List ℚ
  y_train : List Nat
  x_test : List ℚ
  y_test : List Nat
deriving DecidableEq, Repr

/-- Externally observable effects of one run of the pipeline, in program
order. Failing library calls produce no event: an event records an effect
that actually completed. -/
inductive Event where
  | loadData
  | tbCallback (logdir : String)
  | fit (batch_size epochs : Int)
  | evaluate (test_loss test_acc : ℚ)
  | saveLocal (filename : String)
  | upload (bucket objectPath localFilename : String)
  | writeSummary (path tag : String) (value : ℚ)
  | deleteLocal (filename : String)
deriving DecidableEq, Repr

/-- Oracle for the external libraries called by train_and_evaluate: the two
strftime timestamps and the outcome of each fallible library call. Errors
are carried as strings standing for the raised Python exception. -/
structure Env where
  timestampLog : String
  timestampModel : String
  fitResult : Except String Unit
  evalResult : Except String (ℚ × ℚ)
  saveResult : Except String Unit
  uploadResult : Except String Unit
  summaryResult : Except String Unit
deriving Repr

/-- Error string standing for the TypeError Python raises when
os.path.join receives None as its first argument. -/
def typeErrorJoinNone : String :=
  "TypeError: join() argument must be str, not NoneType"

/-- Model of prepare_data (source lines 21-45): download the dataset via the
oracle, then apply _preprocess_x to both feature splits and _preprocess_y to
both label splits. Returns the event trace and the result; a download
failure propagates unmodified with no event. -/
def prepare_data (loadResult : Except String RawData) :
    List Event × Except String ((List ℚ × List (List ℚ)) × (List ℚ × List (List ℚ))) :=
  match loadResult with
  | .error e => ([], .error e)
  | .ok raw =>
      ([Event.loadData],
       .ok ((raw.x_train.map _preprocess_x, _preprocess_y raw.y_train),
            (raw.x_test.map _preprocess_x, _preprocess_y raw.y_test)))

/-- Model of train_and_evaluate (source lines 48-98). job_dir is Option
because the --job-dir flag defaults to None; os.path.join on None raises a
TypeError before any other step. Each external call consults the oracle;
the first failure aborts the run with that error and no later event. -/
def train_and_evaluate (env : Env) (bucket_name path_in_bucket : String)
    (job_dir : Option String) (batch_size epochs : Int) :
    List Event × Except String Unit :=
  match job_dir with
  | none => ([], .error typeErrorJoinNone)
  | some jd =>
      let logdir := os_path_join jd ("logs/scalars/" ++ env.timestampLog)
      match env.fitResult with
      | .error e => ([Event.tbCallback logdir], .error e)
      | .ok _ =>
          match env.evalResult with
          | .error e =>
              ([Event.tbCallback logdir, Event.fit batch_size epochs], .error e)
          | .ok (test_loss, test_acc) =>
              let localfn := "mymodel.h5"
              match env.saveResult with
              | .error e =>
                  ([Event.tbCallback logdir, Event.fit batch_size epochs,
                    Event.evaluate test_loss test_acc], .error e)
              | .ok _ =>
                  let fn := "mnist_keras_" ++ env.timestampModel ++ ".h5"
                  let output_path_gcs := os_path_join path_in_bucket fn
                  match env.uploadResult with
                  | .error e =>
                      ([Event.tbCallback logdir, Event.fit batch_size epochs,
                        Event.evaluate test_loss test_acc,
                        Event.saveLocal localfn], .error e)
                  | .ok _ =>
                      let metric_tag := "accuracyMnist"
                      let eval_path := os_path_join jd metric_tag
                      match env.summaryResult with
                      | .error e =>
                          ([Event.tbCallback logdir, Event.fit batch_size epochs,
                            Event.evaluate test_loss test_acc,
                            Event.saveLocal localfn,
                            Event.upload bucket_name output_path_gcs localfn],
                           .error e)
                      | .ok _ =>
                          ([Event.tbCallback logdir, Event.fit batch_size epochs,
                            Event.evaluate test_loss test_acc,
                            Event.saveLocal localfn,
                            Event.upload bucket_name output_path_gcs localfn,
                            Event.writeSummary eval_path metric_tag test_acc],
                           .ok ())

/-- Parsed command-line arguments (source lines 109-144). -/
structure Args where
  output_bucket : String
  output_path : String
  batch_size : Int
  epochs : Int
  job_dir : Option String
deriving DecidableEq, Repr

/-- Accumulator for the argparse scan: each flag is unset until seen. -/
structure ArgAcc where
  output_bucket : Option String
  output_path : Option String
  batch_size : Option Int
  epochs : Option Int
  job_dir : Option String
deriving DecidableEq, Repr

/-- Scan of the argument vector, consuming one flag and its value at a time,
as argparse does for these five options; an unknown token or a malformed
integer is a parse error. -/
def parse_args_loop (acc : ArgAcc) : List String → Except String ArgAcc
  | [] => .ok acc
  | "--output-bucket" :: v :: rest =>
      parse_args_loop { acc with output_bucket := some v } rest
  | "--output-path" :: v :: rest =>
      parse_args_loop { acc with output_path := some v } rest
  | "--batch-size" :: v :: rest =>
      match v.toInt? with
      | some n => parse_args_loop { acc with batch_size := some n } rest
      | none => .error ("argument --batch-size: invalid int value: " ++ v)
  | "--epochs" :: v :: rest =>
      match v.toInt? with
      | some n => parse_args_loop { acc with epochs := some n } rest
      | none => .error ("argument --epochs: invalid int value: " ++ v)
  | "--job-dir" :: v :: rest =>
      parse_args_loop { acc with job_dir := some v } rest
  | tok :: _ => .error ("unrecognized or incomplete arguments: " ++ tok)

/-- Model of the argparse configuration of the script: --output-bucket and
--output-path are required (so their declared defaults are unreachable),
--batch-size defaults to 64, --epochs to 30, --job-dir to None. -/
def parse_args (argv : List String) : Except String Args :=
  match parse_args_loop ⟨none, none, none, none, none⟩ argv with
  | .error e => .error e
  | .ok acc =>
      match acc.output_bucket with
      | none => .error "the following arguments are required: --output-bucket"
      | some ob =>
          match acc.output_path with
          | none => .error "the following arguments are required: --output-path"
          | some op =>
              .ok { output_bucket := ob, output_path := op,
                    batch_size := acc.batch_size.getD 64,
                    epochs := acc.epochs.getD 30,
                    job_dir := acc.job_dir }

/-- Outcome of the whole process: an argparse usage exit (SystemExit 2) or
an uncaught exception from the pipeline. -/
inductive MainErr where
  | usage (msg : String)
  | uncaught (e : String)
deriving DecidableEq, Repr

/-- Model of the __main__ block (source lines 109-153): parse the arguments,
then run prepare_data and train_and_evaluate in sequence; a parse failure
exits before any data loading, a pipeline failure propagates uncaught. -/
def main_run (env : Env) (loadResult : Except String RawData)
    (argv : List String) : List Event × Except MainErr Unit :=
  match parse_args argv with
  | .error e => ([], .error (MainErr.usage e))
  | .ok args =>
      match prepare_data loadResult with
      | (t1, .error e) => (t1, .error (MainErr.uncaught e))
      | (t1, .ok _) =>
          match train_and_evaluate env args.output_bucket args.output_path
              args.job_dir args.batch_size args.epochs with
          | (t2, .error e) => (t1 ++ t2, .error (MainErr.uncaught e))
          | (t2, .ok _) => (t1 ++ t2, .ok ())

/-- Local files present after a trace of events, starting from an empty
working directory: saves add a file, deletes remove it. -/
def localFiles (tr : List Event) : List String :=
  tr.foldl
    (fun fs ev =>
      match ev with
      | Event.saveLocal fn => fn :: fs
      | Event.deleteLocal fn => fs.erase fn
      | _ => fs) []

/-- Recognizer for summary-write events. -/
def isWriteSummary : Event → Bool
  | Event.writeSummary _ _ _ => true
  | _ => false

/-- Recognizer for upload events. -/
def isUpload : Event → Bool
  | Event.upload _ _ _ => true
  | _ => false

/-- Recognizer for local save events. -/
def isSaveLocal : Event → Bool
  | Event.saveLocal _ => true
  | _ => false

/-- Recognizer for local delete events. -/
def isDeleteLocal : Event → Bool
  | Event.deleteLocal _ => true
  | _ => false

/-! Helper lemmas. -/

/-- The foldl-max accumulator never decreases. -/
lemma le_foldl_max_init (t : List Nat) : ∀ a : Nat, a ≤ t.foldl max a := by
  induction t with
  | nil => intro a; exact le_refl a
  | cons c t ih =>
      intro a
      exact le_trans (le_max_left a c) (ih (max a c))

/-- Every member of a list is bounded by its foldl max. -/
lemma mem_le_foldl_max (y : List Nat) : ∀ (a l : Nat), l ∈ y → l ≤ y.foldl max a := by
  induction y with
  | nil => intro a l h; cases h
  | cons b t ih =>
      intro a l h
      rcases List.mem_cons.mp h with h | h
      · subst h
        exact le_trans (le_max_right a l) (le_foldl_max_init t (max a l))
      · exact ih (max a b) l h

/-- Any label occurring in the array is below the inferred class count. -/
lemma label_lt_numClasses (y : List Nat) (k : Nat) (hk : k < y.length) :
    y.getD k 0 < numClasses y := by
  have hmem : y.getD k 0 ∈ y := by
    rw [List.getD_eq_getElem y 0 hk]
    exact List.getElem_mem hk
  exact Nat.lt_succ_of_le (mem_le_foldl_max y 0 _ hmem)

/-- A one-hot row has the inferred length. -/
lemma oneHotRow_length (c l : Nat) : (oneHotRow c l).length = c := by
  simp [oneHotRow]

/-- Entry i of a one-hot row, for i in range. -/
lemma oneHotRow_getD (c l i : Nat) (hi : i < c) :
    (oneHotRow c l).getD i 0 = if i = l then 1 else 0 := by
  unfold oneHotRow
  rw [List.getD_eq_getElem _ _ (by simpa using hi)]
  simp

/-- Row k of the encoded label matrix is the one-hot row of label k. -/
lemma preprocess_y_getD (y : List Nat) (k : Nat) (hk : k < y.length) :
    (_preprocess_y y).getD k [] = oneHotRow (numClasses y) (y.getD k 0) := by
  unfold _preprocess_y to_categorical
  rw [List.getD_eq_getElem _ _ (by simpa using hk)]
  rw [List.getElem_map]
  rw [List.getD_eq_getElem y 0 hk]

/-! Claim theorems. -/

/-- Claim C3: for every pixel value v with 0 <= v <= 255, the normalization
applied by preprocessing returns v/255, and this value lies in [0,1]. -/
theorem claim_c3 (v : ℚ) (h0 : 0 ≤ v) (h255 : v ≤ 255) :
    _preprocess_x v = v / 255 ∧ 0 ≤ _preprocess_x v ∧ _preprocess_x v ≤ 1 := by
  refine ⟨rfl, ?_, ?_⟩
  · exact div_nonneg h0 (by norm_num)
  · unfold _preprocess_x
    rw [div_le_one (by norm_num)]
    exact h255

/-- Witness for C3 at the concrete pixel value 51. -/
theorem claim_c3_witness :
    (0 : ℚ) ≤ 51 ∧ (51 : ℚ) ≤ 255 ∧
    (_preprocess_x 51 = 51 / 255 ∧ 0 ≤ _preprocess_x 51 ∧ _preprocess_x 51 ≤ 1) :=
  ⟨by norm_num, by norm_num, claim_c3 51 (by norm_num) (by norm_num)⟩

/-- Claim C4: every label position k of the array yields a one-hot vector of
length C = numClasses y with entry 1 exactly at the label index and 0 at
every other index below C; in particular exactly one entry equals 1. -/
theorem claim_c4 (y : List Nat) (k : Nat) (hk : k < y.length) :
    ((_preprocess_y y).getD k []).length = numClasses y ∧
    ((_preprocess_y y).getD k []).getD (y.getD k 0) 0 = 1 ∧
    (∀ i, i < numClasses y → i ≠ y.getD k 0 →
      ((_preprocess_y y).getD k []).getD i 0 = 0) ∧
    (∃! i, i < numClasses y ∧ ((_preprocess_y y).getD k []).getD i 0 = 1) := by
  have hrow := preprocess_y_getD y k hk
  have hlab := label_lt_numClasses y k hk
  rw [hrow]
  refine ⟨oneHotRow_length _ _, ?_, ?_, ?_⟩
  · rw [oneHotRow_getD _ _ _ hlab]
    simp
  · intro i hi hne
    rw [oneHotRow_getD _ _ _ hi, if_neg hne]
  · refine ⟨y.getD k 0, ⟨hlab, ?_⟩, ?_⟩
    · rw [oneHotRow_getD _ _ _ hlab]; simp
    · intro j hj
      by_contra hne
      rw [oneHotRow_getD _ _ _ hj.1, if_neg hne] at hj
      exact absurd hj.2 (by norm_num)

/-- Witness for C4 at the concrete label array [2, 0, 1], position 0. -/
theorem claim_c4_witness :
    (0 : Nat) < ([2, 0, 1] : List Nat).length ∧
    (((_preprocess_y [2, 0, 1]).getD 0 []).length = numClasses [2, 0, 1] ∧
     ((_preprocess_y [2, 0, 1]).getD 0 []).getD (([2, 0, 1] : List Nat).getD 0 0) 0 = 1 ∧
     (∀ i, i < numClasses [2, 0, 1] → i ≠ ([2, 0, 1] : List Nat).getD 0 0 →
       ((_preprocess_y [2, 0, 1]).getD 0 []).getD i 0 = 0) ∧
     (∃! i, i < numClasses [2, 0, 1] ∧
       ((_preprocess_y [2, 0, 1]).getD 0 []).getD i 0 = 1)) :=
  ⟨by decide, claim_c4 [2, 0, 1] 0 (by decide)⟩

/-- Claim C5: preprocessing is deterministic and side-effect-free: equal raw
inputs give identical prepare_data outputs, and the only event of a
successful prepare_data run is the dataset download itself. -/
theorem claim_c5 (r1 r2 : RawData) (h : r1 = r2) :
    prepare_data (Except.ok r1) = prepare_data (Except.ok r2) ∧
    (prepare_data (Except.ok r1)).1 = [Event.loadData] := by
  subst h
  exact ⟨rfl, rfl⟩

/-- Witness for C5 at a concrete raw dataset. -/
theorem claim_c5_witness :
    prepare_data (Except.ok ⟨[0, 255], [1, 0], [255], [1]⟩) =
      prepare_data (Except.ok ⟨[0, 255], [1, 0], [255], [1]⟩) ∧
    (prepare_data (Except.ok ⟨[0, 255], [1, 0], [255], [1]⟩)).1 = [Event.loadData] :=
  claim_c5 ⟨[0, 255], [1, 0], [255], [1]⟩ ⟨[0, 255], [1, 0], [255], [1]⟩ rfl

/-- Oracle environment in which every external call succeeds; the test
accuracy returned by evaluate is 9/10. -/
def envOk : Env :=
  { timestampLog := "20200101-000000"
    timestampModel := "20200101000000"
    fitResult := Except.ok ()
    evalResult := Except.ok (1/2, 9/10)
    saveResult := Except.ok ()
    uploadResult := Except.ok ()
    summaryResult := Except.ok () }

/-- Claim C1: a completed run writes exactly one scalar summary; its tag is
accuracyMnist, its value is the test accuracy returned by evaluation and
lies in [0,1] (given that the evaluation oracle reports an accuracy in
[0,1]), and its path is the join of the job dir with accuracyMnist. -/
theorem claim_c1 (env : Env) (bn pib jd : String) (bs ep : Int) (l a : ℚ)
    (heval : env.evalResult = Except.ok (l, a)) (h0 : 0 ≤ a) (h1 : a ≤ 1)
    (hok : (train_and_evaluate env bn pib (some jd) bs ep).2 = Except.ok ()) :
    (train_and_evaluate env bn pib (some jd) bs ep).1.filter isWriteSummary =
      [Event.writeSummary (os_path_join jd "accuracyMnist") "accuracyMnist" a] ∧
    0 ≤ a ∧ a ≤ 1 := by
  cases hf : env.fitResult with
  | error e => simp [train_and_evaluate, hf] at hok
  | ok u =>
    cases hs : env.saveResult with
    | error e => simp [train_and_evaluate, hf, heval, hs] at hok
    | ok u2 =>
      cases hu : env.uploadResult with
      | error e => simp [train_and_evaluate, hf, heval, hs, hu] at hok
      | ok u3 =>
        cases hw : env.summaryResult with
        | error e => simp [train_and_evaluate, hf, heval, hs, hu, hw] at hok
        | ok u4 =>
          refine ⟨?_, h0, h1⟩
          simp [train_and_evaluate, hf, heval, hs, hu, hw, isWriteSummary]

/-- Witness for C1 in the all-success environment. -/
theorem claim_c1_witness :
    (train_and_evaluate envOk "bkt" "models" (some "jd") 2 1).1.filter isWriteSummary =
      [Event.writeSummary (os_path_join "jd" "accuracyMnist") "accuracyMnist" (9/10)] ∧
    (0 : ℚ) ≤ 9/10 ∧ (9/10 : ℚ) ≤ 1 :=
  claim_c1 envOk "bkt" "models" "jd" 2 1 (1/2) (9/10) rfl (by norm_num) (by norm_num) rfl

/-- Claim C2: a completed run performs exactly one upload, of the local model
file, to the given bucket, at the object path obtained by joining the given
path-in-bucket with the timestamped filename mnist_keras_(timestamp).h5. -/
theorem claim_c2 (env : Env) (bn pib jd : String) (bs ep : Int)
    (hok : (train_and_evaluate env bn pib (some jd) bs ep).2 = Except.ok ()) :
    (train_and_evaluate env bn pib (some jd) bs ep).1.filter isUpload =
      [Event.upload bn
        (os_path_join pib ("mnist_keras_" ++ env.timestampModel ++ ".h5"))
        "mymodel.h5"] := by
  cases hf : env.fitResult with
  | error e => simp [train_and_evaluate, hf] at hok
  | ok u =>
    cases heval : env.evalResult with
    | error e => simp [train_and_evaluate, hf, heval] at hok
    | ok p =>
      obtain ⟨l, a⟩ := p
      cases hs : env.saveResult with
      | error e => simp [train_and_evaluate, hf, heval, hs] at hok
      | ok u2 =>
        cases hu : env.uploadResult with
        | error e => simp [train_and_evaluate, hf, heval, hs, hu] at hok
        | ok u3 =>
          cases hw : env.summaryResult with
          | error e => simp [train_and_evaluate, hf, heval, hs, hu, hw] at hok
          | ok u4 =>
            simp [train_and_evaluate, hf, heval, hs, hu, hw, isUpload]

/-- Witness for C2 in the all-success environment. -/
theorem claim_c2_witness :
    (train_and_evaluate envOk "bkt" "models" (some "jd") 2 1).1.filter isUpload =
      [Event.upload "bkt"
        (os_path_join "models" ("mnist_keras_" ++ envOk.timestampModel ++ ".h5"))
        "mymodel.h5"] :=
  claim_c2 envOk "bkt" "models" "jd" 2 1 rfl

/-- Claim C9: every completed run saves the model exactly once, to the fixed
local filename mymodel.h5 whatever the arguments are, never deletes a local
file, and the local copy still exists when the function returns. -/
theorem claim_c9 (env : Env) (bn pib jd : String) (bs ep : Int)
    (hok : (train_and_evaluate env bn pib (some jd) bs ep).2 = Except.ok ()) :
    (train_and_evaluate env bn pib (some jd) bs ep).1.filter isSaveLocal =
      [Event.saveLocal "mymodel.h5"] ∧
    (train_and_evaluate env bn pib (some jd) bs ep).1.filter isDeleteLocal = [] ∧
    "mymodel.h5" ∈ localFiles (train_and_evaluate env bn pib (some jd) bs ep).1 := by
  cases hf : env.fitResult with
  | error e => simp [train_and_evaluate, hf] at hok
  | ok u =>
    cases heval : env.evalResult with
    | error e => simp [train_and_evaluate, hf, heval] at hok
    | ok p =>
      obtain ⟨l, a⟩ := p
      cases hs : env.saveResult with
      | error e => simp [train_and_evaluate, hf, heval, hs] at hok
      | ok u2 =>
        cases hu : env.uploadResult with
        | error e => simp [train_and_evaluate, hf, heval, hs, hu] at hok
        | ok u3 =>
          cases hw : env.summaryResult with
          | error e => simp [train_and_evaluate, hf, heval, hs, hu, hw] at hok
          | ok u4 =>
            refine ⟨?_, ?_, ?_⟩ <;>
              simp [train_and_evaluate, hf, heval, hs, hu, hw,
                isSaveLocal, isDeleteLocal, localFiles]

/-- Witness for C9 in the all-success environment. -/
theorem claim_c9_witness :
    (train_and_evaluate envOk "bkt" "models" (some "jd") 2 1).1.filter isSaveLocal =
      [Event.saveLocal "mymodel.h5"] ∧
    (train_and_evaluate envOk "bkt" "models" (some "jd") 2 1).1.filter isDeleteLocal = [] ∧
    "mymodel.h5" ∈ localFiles (train_and_evaluate envOk "bkt" "models" (some "jd") 2 1).1 :=
  claim_c9 envOk "bkt" "models" "jd" 2 1 rfl

/-- Environment where model fitting raises. -/
def envFitFail : Env := { envOk with fitResult := Except.error "ResourceExhaustedError" }

/-- Environment where the local model save raises. -/
def envSaveFail : Env := { envOk with saveResult := Except.error "OSError: disk full" }

/-- Environment where the cloud upload raises. -/
def envUploadFail : Env := { envOk with uploadResult := Except.error "Forbidden: 403" }

/-- Environment where the metric summary write raises. -/
def envSummaryFail : Env := { envOk with summaryResult := Except.error "OSError: readonly" }

/-- Claim C8: neither prepare_data nor train_and_evaluate catches anything:
whichever sub-step fails (data download, model fit, local save, cloud
upload, metric write), the run ends with exactly that error, unmodified,
and the trace stops before the failing step, with no retry and no later
pipeline step. -/
theorem claim_c8 (env : Env) (bn pib jd : String) (bs ep : Int) (e : String) :
    (prepare_data (Except.error e) = ([], Except.error e)) ∧
    (env.fitResult = Except.error e →
      train_and_evaluate env bn pib (some jd) bs ep =
        ([Event.tbCallback (os_path_join jd ("logs/scalars/" ++ env.timestampLog))],
         Except.error e)) ∧
    (∀ l a : ℚ, env.fitResult = Except.ok () → env.evalResult = Except.ok (l, a) →
      env.saveResult = Except.error e →
      train_and_evaluate env bn pib (some jd) bs ep =
        ([Event.tbCallback (os_path_join jd ("logs/scalars/" ++ env.timestampLog)),
          Event.fit bs ep, Event.evaluate l a],
         Except.error e)) ∧
    (∀ l a : ℚ, env.fitResult = Except.ok () → env.evalResult = Except.ok (l, a) →
      env.saveResult = Except.ok () → env.uploadResult = Except.error e →
      train_and_evaluate env bn pib (some jd) bs ep =
        ([Event.tbCallback (os_path_join jd ("logs/scalars/" ++ env.timestampLog)),
          Event.fit bs ep, Event.evaluate l a, Event.saveLocal "mymodel.h5"],
         Except.error e)) ∧
    (∀ l a : ℚ, env.fitResult = Except.ok () → env.evalResult = Except.ok (l, a) →
      env.saveResult = Except.ok () → env.uploadResult = Except.ok () →
      env.summaryResult = Except.error e →
      train_and_evaluate env bn pib (some jd) bs ep =
        ([Event.tbCallback (os_path_join jd ("logs/scalars/" ++ env.timestampLog)),
          Event.fit bs ep, Event.evaluate l a, Event.saveLocal "mymodel.h5",
          Event.upload bn
            (os_path_join pib ("mnist_keras_" ++ env.timestampModel ++ ".h5"))
            "mymodel.h5"],
         Except.error e)) := by
  refine ⟨rfl, ?_, ?_, ?_, ?_⟩
  · intro hf
    simp [train_and_evaluate, hf]
  · intro l a hf heval hs
    simp [train_and_evaluate, hf, heval, hs]
  · intro l a hf heval hs hu
    simp [train_and_evaluate, hf, heval, hs, hu]
  · intro l a hf heval hs hu hw
    simp [train_and_evaluate, hf, heval, hs, hu, hw]

/-- Witness for C8: each failure scenario instantiated in its concrete
environment. -/
theorem claim_c8_witness :
    (prepare_data (Except.error "HTTPError: 503") = ([], Except.error "HTTPError: 503")) ∧
    (train_and_evaluate envFitFail "b" "p" (some "jd") 2 1 =
      ([Event.tbCallback (os_path_join "jd" ("logs/scalars/" ++ envFitFail.timestampLog))],
       Except.error "ResourceExhaustedError")) ∧
    (train_and_evaluate envSaveFail "b" "p" (some "jd") 2 1 =
      ([Event.tbCallback (os_path_join "jd" ("logs/scalars/" ++ envSaveFail.timestampLog)),
        Event.fit 2 1, Event.evaluate (1/2) (9/10)],
       Except.error "OSError: disk full")) ∧
    (train_and_evaluate envUploadFail "b" "p" (some "jd") 2 1 =
      ([Event.tbCallback (os_path_join "jd" ("logs/scalars/" ++ envUploadFail.timestampLog)),
        Event.fit 2 1, Event.evaluate (1/2) (9/10), Event.saveLocal "mymodel.h5"],
       Except.error "Forbidden: 403")) ∧
    (train_and_evaluate envSummaryFail "b" "p" (some "jd") 2 1 =
      ([Event.tbCallback (os_path_join "jd" ("logs/scalars/" ++ envSummaryFail.timestampLog)),
        Event.fit 2 1, Event.evaluate (1/2) (9/10), Event.saveLocal "mymodel.h5",
        Event.upload "b"
          (os_path_join "p" ("mnist_keras_" ++ envSummaryFail.timestampModel ++ ".h5"))
          "mymodel.h5"],
       Except.error "OSError: readonly")) :=
  ⟨(claim_c8 envOk "b" "p" "jd" 2 1 "HTTPError: 503").1,
   (claim_c8 envFitFail "b" "p" "jd" 2 1 "ResourceExhaustedError").2.1 rfl,
   (claim_c8 envSaveFail "b" "p" "jd" 2 1 "OSError: disk full").2.2.1
     (1/2) (9/10) rfl rfl rfl,
   (claim_c8 envUploadFail "b" "p" "jd" 2 1 "Forbidden: 403").2.2.2.1
     (1/2) (9/10) rfl rfl rfl rfl,
   (claim_c8 envSummaryFail "b" "p" "jd" 2 1 "OSError: readonly").2.2.2.2
     (1/2) (9/10) rfl rfl rfl rfl rfl⟩

/-- A successful scan leaves every flag that never occurs in the argument
vector at its value in the initial accumulator. -/
lemma parse_args_loop_preserves :
    ∀ (acc : ArgAcc) (argv : List String) (acc' : ArgAcc),
      parse_args_loop acc argv = Except.ok acc' →
      ("--output-bucket" ∉ argv → acc'.output_bucket = acc.output_bucket) ∧
      ("--output-path" ∉ argv → acc'.output_path = acc.output_path) ∧
      ("--job-dir" ∉ argv → acc'.job_dir = acc.job_dir) := by
  intro acc argv
  induction acc, argv using parse_args_loop.induct with
  | case1 acc =>
      intro acc' h
      simp [parse_args_loop] at h
      subst h
      exact ⟨fun _ => rfl, fun _ => rfl, fun _ => rfl⟩
  | case2 acc v rest ih =>
      intro acc' h
      simp only [parse_args_loop] at h
      refine ⟨fun hm => absurd (List.mem_cons_self _ _) hm, ?_, ?_⟩
      · intro hm
        exact (ih acc' h).2.1
          (fun hr => hm (List.mem_cons_of_mem _ (List.mem_cons_of_mem _ hr)))
      · intro hm
        exact (ih acc' h).2.2
          (fun hr => hm (List.mem_cons_of_mem _ (List.mem_cons_of_mem _ hr)))
  | case3 acc v rest ih =>
      intro acc' h
      simp only [parse_args_loop] at h
      refine ⟨?_, fun hm => absurd (List.mem_cons_self _ _) hm, ?_⟩
      · intro hm
        exact (ih acc' h).1
          (fun hr => hm (List.mem_cons_of_mem _ (List.mem_cons_of_mem _ hr)))
      · intro hm
        exact (ih acc' h).2.2
          (fun hr => hm (List.mem_cons_of_mem _ (List.mem_cons_of_mem _ hr)))
  | case4 acc v rest n hint ih =>
      intro acc' h
      simp only [parse_args_loop, hint] at h
      refine ⟨?_, ?_, ?_⟩
      · intro hm
        exact (ih acc' h).1
          (fun hr => hm (List.mem_cons_of_mem _ (List.mem_cons_of_mem _ hr)))
      · intro hm
        exact (ih acc' h).2.1
          (fun hr => hm (List.mem_cons_of_mem _ (List.mem_cons_of_mem _ hr)))
      · intro hm
        exact (ih acc' h).2.2
          (fun hr => hm (List.mem_cons_of_mem _ (List.mem_cons_of_mem _ hr)))
  | case5 acc v rest hnone =>
      intro acc' h
      simp [parse_args_loop, hnone] at h
  | case6 acc v rest n hint ih =>
      intro acc' h
      simp only [parse_args_loop, hint] at h
      refine ⟨?_, ?_, ?_⟩
      · intro hm
        exact (ih acc' h).1
          (fun hr => hm (List.mem_cons_of_mem _ (List.mem_cons_of_mem _ hr)))
      · intro hm
        exact (ih acc' h).2.1
          (fun hr => hm (List.mem_cons_of_mem _ (List.mem_cons_of_mem _ hr)))
      · intro hm
        exact (ih acc' h).2.2
          (fun hr => hm (List.mem_cons_of_mem _ (List.mem_cons_of_mem _ hr)))
  | case7 acc v rest hnone =>
      intro acc' h
      simp [parse_args_loop, hnone] at h
  | case8 acc v rest ih =>
      intro acc' h
      simp only [parse_args_loop] at h
      refine ⟨?_, ?_, fun hm => absurd (List.mem_cons_self _ _) hm⟩
      · intro hm
        exact (ih acc' h).1
          (fun hr => hm (List.mem_cons_of_mem _ (List.mem_cons_of_mem _ hr)))
      · intro hm
        exact (ih acc' h).2.1
          (fun hr => hm (List.mem_cons_of_mem _ (List.mem_cons_of_mem _ hr)))
  | case9 acc tok tail h1 h2 =>
      intro acc' h
      simp [parse_args_loop] at h

/-- Claim C7: when --output-bucket or --output-path is omitted, argument
parsing fails, the process exits with a usage error, and no data loading
happens: the run trace is empty, so the declared default for --output-path
is never consulted. -/
theorem claim_c7 (env : Env) (lr : Except String RawData) (argv : List String)
    (h : "--output-bucket" ∉ argv ∨ "--output-path" ∉ argv) :
    (∃ e, parse_args argv = Except.error e) ∧
    (∃ e, main_run env lr argv = ([], Except.error (MainErr.usage e))) ∧
    Event.loadData ∉ (main_run env lr argv).1 := by
  have hperr : ∃ e, parse_args argv = Except.error e := by
    cases hloop : parse_args_loop ⟨none, none, none, none, none⟩ argv with
    | error e => exact ⟨e, by simp [parse_args, hloop]⟩
    | ok acc =>
        have hpres := parse_args_loop_preserves ⟨none, none, none, none, none⟩ argv acc hloop
        rcases h with h | h
        · have hob : acc.output_bucket = none := hpres.1 h
          exact ⟨"the following arguments are required: --output-bucket",
            by simp [parse_args, hloop, hob]⟩
        · have hop : acc.output_path = none := hpres.2.1 h
          cases hob : acc.output_bucket with
          | none =>
              exact ⟨"the following arguments are required: --output-bucket",
                by simp [parse_args, hloop, hob]⟩
          | some ob =>
              exact ⟨"the following arguments are required: --output-path",
                by simp [parse_args, hloop, hob, hop]⟩
  obtain ⟨e, he⟩ := hperr
  refine ⟨⟨e, he⟩, ⟨e, ?_⟩, ?_⟩
  · simp [main_run, he]
  · simp [main_run, he]

/-- Witness for C7: a command line carrying only --output-path. -/
theorem claim_c7_witness :
    (∃ e, parse_args ["--output-path", "p"] = Except.error e) ∧
    (∃ e, main_run envOk (Except.ok ⟨[], [], [], []⟩) ["--output-path", "p"] =
      ([], Except.error (MainErr.usage e))) ∧
    Event.loadData ∉ (main_run envOk (Except.ok ⟨[], [], [], []⟩) ["--output-path", "p"]).1 :=
  claim_c7 envOk (Except.ok ⟨[], [], [], []⟩) ["--output-path", "p"] (Or.inl (by simp))

/-- Claim C10: omitting --job-dir leaves job_dir at its None default, and
train_and_evaluate with job_dir None fails immediately with the TypeError
from os.path.join, before any model building, training, saving or
uploading: the trace is empty. -/
theorem claim_c10 (env : Env) (bn pib : String) (bs ep : Int) (argv : List String)
    (hnojd : "--job-dir" ∉ argv) :
    (∀ a, parse_args argv = Except.ok a → a.job_dir = none) ∧
    train_and_evaluate env bn pib none bs ep = ([], Except.error typeErrorJoinNone) := by
  constructor
  · intro a hpa
    unfold parse_args at hpa
    cases hloop : parse_args_loop ⟨none, none, none, none, none⟩ argv with
    | error e => rw [hloop] at hpa; simp at hpa
    | ok acc =>
        rw [hloop] at hpa
        have hjd : acc.job_dir = none :=
          (parse_args_loop_preserves ⟨none, none, none, none, none⟩ argv acc hloop).2.2 hnojd
        cases hob : acc.output_bucket with
        | none => simp [hob] at hpa
        | some ob =>
            cases hop : acc.output_path with
            | none => simp [hob, hop] at hpa
            | some op =>
                simp only [hob, hop, Except.ok.injEq] at hpa
                subst hpa
                exact hjd
  · rfl

/-- Witness for C10: a command line with both required flags but no
--job-dir, and a concrete call with job_dir None. -/
theorem claim_c10_witness :
    (∀ a, parse_args ["--output-bucket", "b", "--output-path", "p"] = Except.ok a →
      a.job_dir = none) ∧
    train_and_evaluate envOk "b" "p" none 2 1 = ([], Except.error typeErrorJoinNone) :=
  claim_c10 envOk "b" "p" 2 1 ["--output-bucket", "b", "--output-path", "p"] (by simp)

/-- Elementwise view of the normalized feature list. -/
lemma map_preprocess_x_getD (xs : List ℚ) (i : Nat) (hi : i < xs.length) :
    (xs.map _preprocess_x).getD i 0 = _preprocess_x (xs.getD i 0) := by
  rw [List.getD_eq_getElem _ _ (by simpa using hi), List.getElem_map,
      List.getD_eq_getElem xs 0 hi]

/-- Counterexample to claim C6 as stated: with raw label splits [1] and
[1, 2], position 0 of both splits carries the same raw label 1, yet
prepare_data encodes it as [0, 1] on the train side and [0, 1, 0] on the
test side, because to_categorical infers the class count per array. -/
theorem claim_c6_counterexample :
    (RawData.mk [] [1] [] [1, 2]).y_train.getD 0 0 =
      (RawData.mk [] [1] [] [1, 2]).y_test.getD 0 0 ∧
    (prepare_data (Except.ok (RawData.mk [] [1] [] [1, 2]))).2 =
      Except.ok (([], [[0, 1]]), ([], [[0, 1, 0], [0, 0, 1]])) ∧
    ([[(0 : ℚ), 1]].getD 0 []) ≠ ([[(0 : ℚ), 1, 0]].getD 0 []) := by
  refine ⟨rfl, ?_, ?_⟩
  · simp only [prepare_data, Except.ok.injEq, Prod.mk.injEq]
    refine ⟨⟨rfl, ?_⟩, rfl, ?_⟩ <;>
      norm_num [_preprocess_y, to_categorical, numClasses, oneHotRow, List.range_succ]
  · decide

/-- Claim C6 amended: prepare_data applies the same normalization function
to the features of both splits, so equal raw feature values give equal
normalized values; equal raw label values give equal encoded vectors
provided the two splits have the same maximum label (the class count that
to_categorical infers separately for each array). -/
theorem claim_c6_amended (raw : RawData) (tr te : List ℚ × List (List ℚ))
    (hprep : (prepare_data (Except.ok raw)).2 = Except.ok (tr, te)) :
    (∀ i j, i < raw.x_train.length → j < raw.x_test.length →
      raw.x_train.getD i 0 = raw.x_test.getD j 0 →
      tr.1.getD i 0 = te.1.getD j 0) ∧
    (raw.y_train.foldl max 0 = raw.y_test.foldl max 0 →
      ∀ i j, i < raw.y_train.length → j < raw.y_test.length →
        raw.y_train.getD i 0 = raw.y_test.getD j 0 →
        tr.2.getD i [] = te.2.getD j []) := by
  obtain ⟨tr1, tr2⟩ := tr
  obtain ⟨te1, te2⟩ := te
  simp only [prepare_data, Except.ok.injEq, Prod.mk.injEq] at hprep
  obtain ⟨⟨hx1, hy1⟩, hx2, hy2⟩ := hprep
  subst hx1
  subst hy1
  subst hx2
  subst hy2
  constructor
  · intro i j hi hj heq
    dsimp only
    rw [map_preprocess_x_getD _ _ hi, map_preprocess_x_getD _ _ hj, heq]
  · intro hmax i j hi hj heq
    dsimp only
    rw [preprocess_y_getD _ _ hi, preprocess_y_getD _ _ hj, heq]
    unfold numClasses
    rw [hmax]

/-- Witness for the amended C6 at a concrete raw dataset whose two splits
share the maximum label 1. -/
theorem claim_c6_witness :
    (∀ i j, i < ([3, 7] : List ℚ).length → j < ([7] : List ℚ).length →
      ([3, 7] : List ℚ).getD i 0 = ([7] : List ℚ).getD j 0 →
      (([3, 7] : List ℚ).map _preprocess_x).getD i 0 =
        (([7] : List ℚ).map _preprocess_x).getD j 0) ∧
    (([1, 0] : List Nat).foldl max 0 = ([1] : List Nat).foldl max 0 →
      ∀ i j, i < ([1, 0] : List Nat).length → j < ([1] : List Nat).length →
        ([1, 0] : List Nat).getD i 0 = ([1] : List Nat).getD j 0 →
        (_preprocess_y [1, 0]).getD i [] = (_preprocess_y [1]).getD j []) :=
  claim_c6_amended (RawData.mk [3, 7] [1, 0] [7] [1])
    (([3, 7] : List ℚ).map _preprocess_x, _preprocess_y [1, 0])
    (([7] : List ℚ).map _preprocess_x, _preprocess_y [1]) rfl

end MNISTTrainer
